import Mathlib

/-!
Shallow embedding of `src/zathura_bot.py` (the Zathura Companion Telegram
bot) and verification of the specification's claims about its
update-dispatch and response-assembly pipeline.

The embedding models:
* JSON values as returned by `response.json()`;
* the Python attribute/index access chains (`dict.get`, `[0]`, `[:3]`,
  truthiness, `+=`) together with the exceptions they can raise;
* `generate_gemini_response` and `generate_imagen_image` as functions of
  the network outcome (a transport exception, or a response with a status
  code and a JSON body), recording the URL of every backend request that
  the function attempts;
* the Telegram handlers `handle_text_message`, `generate_image_command`
  and `start_command` as trace-producing functions of an environment that
  fixes the API key, whether the `send_chat_action` call fails, and the
  backend's network outcome.
-/

namespace ZathuraBot

/-- JSON values as produced by `response.json()`. Object fields keep the
textual order of the wire body. -/
inductive Json where
  | null : Json
  | bool : Bool → Json
  | num : Int → Json
  | str : String → Json
  | arr : List Json → Json
  | obj : List (String × Json) → Json

/-- Python exceptions that the extraction chains in the script can raise
(these are not `requests.exceptions.RequestException`, hence are not
caught by the scripts `except` clauses). -/
inductive PyErr where
  | attributeError : PyErr
  | indexError : PyErr
  | typeError : PyErr
  | keyError : PyErr
deriving DecidableEq

/-- First binding of a key in a Python dict (our objects are built from
wire JSON, so keys are effectively unique; first match is the value). -/
def lookupField : List (String × Json) → String → Option Json
  | [], _ => none
  | (k, v) :: rest, key => if k = key then some v else lookupField rest key

/-- Python `value.get(key, default)`: only dicts have `.get`; any other
value raises `AttributeError`. -/
def pyGet (v : Json) (key : String) (default : Json) : Except PyErr Json :=
  match v with
  | .obj fields => .ok ((lookupField fields key).getD default)
  | _ => .error .attributeError

/-- Python `value[0]`: lists and strings index from the front (an empty
one raises `IndexError`), dict lookup of the key `0` raises `KeyError`
for our string-keyed wire objects, anything else raises `TypeError`. -/
def pyIndex0 : Json → Except PyErr Json
  | .arr [] => .error .indexError
  | .arr (x :: _) => .ok x
  | .str s =>
    match s.toList with
    | [] => .error .indexError
    | c :: _ => .ok (.str (String.singleton c))
  | .obj _ => .error .keyError
  | _ => .error .typeError

/-- Python truthiness of a JSON value. -/
def Json.truthy : Json → Bool
  | .null => false
  | .bool b => b
  | .num n => n != 0
  | .str s => s != ""
  | .arr xs => !xs.isEmpty
  | .obj fields => !fields.isEmpty

/-- Python `value[:3]`: slicing is defined on lists and strings and raises
`TypeError` elsewhere (a dict rejects the unhashable slice). -/
def pySlice3 : Json → Except PyErr Json
  | .arr xs => .ok (.arr (xs.take 3))
  | .str s => .ok (.str (String.mk (s.toList.take 3)))
  | _ => .error .typeError

/-- Iteration over the sliced value (`for ... in enumerate(...)`): a list
yields its elements, a string yields its characters as one-character
strings. Other values are unreachable after `pySlice3`. -/
def pyIter : Json → Except PyErr (List Json)
  | .arr xs => .ok xs
  | .str s => .ok (s.toList.map fun c => .str (String.singleton c))
  | _ => .error .typeError

/-- Python `repr` of a JSON value, used by `str()` for containers. -/
def pyRepr : Json → String
  | .null => "None"
  | .bool true => "True"
  | .bool false => "False"
  | .num n => toString n
  | .str s => "\x27" ++ s ++ "\x27"
  | .arr xs => "[" ++ String.intercalate ", " (xs.attach.map fun x => pyRepr x.1) ++ "]"
  | .obj fields =>
    "\x7b" ++
      String.intercalate ", "
        (fields.attach.map fun kv => "\x27" ++ kv.1.1 ++ "\x27: " ++ pyRepr kv.1.2) ++
      "\x7d"
decreasing_by
  · obtain ⟨a, ha⟩ := x
    have h := List.sizeOf_lt_of_mem ha
    simp at h ⊢
    omega
  · obtain ⟨⟨k, v⟩, ha⟩ := kv
    have h := List.sizeOf_lt_of_mem ha
    simp at h ⊢
    omega

/-- Python `str()` / f-string conversion of a JSON value. -/
def pyStr : Json → String
  | .str s => s
  | v => pyRepr v

/-- The fallback text of line 58 of the script (`.get('text', ...)`). -/
def fallbackText : String := "Sorry, I couldn\x27t process that request."

/-- The apology returned when a `requests.exceptions.RequestException`
is caught in `generate_gemini_response` (lines 71-73). -/
def connectApology : String := "I\x27m having trouble connecting to the AI service right now."

/-- Lines 56-58 prefix: `data.get('candidates', [{}])[0]`. -/
def firstCandidate (data : Json) : Except PyErr Json := do
  let cs ← pyGet data "candidates" (.arr [.obj []])
  pyIndex0 cs

/-- Line 58: `data.get('candidates', [{}])[0].get('content', {}).get('parts', [{}])[0].get('text', "Sorry, ...")`. -/
def extractText (data : Json) : Except PyErr Json := do
  let c0 ← firstCandidate data
  let content ← pyGet c0 "content" (.obj [])
  let parts ← pyGet content "parts" (.arr [.obj []])
  let p0 ← pyIndex0 parts
  pyGet p0 "text" (.str fallbackText)

/-- Line 59: `data.get('candidates', [{}])[0].get('groundingMetadata', {}).get('groundingAttributions', [])`. -/
def extractSources (data : Json) : Except PyErr Json := do
  let c0 ← firstCandidate data
  let gm ← pyGet c0 "groundingMetadata" (.obj [])
  pyGet gm "groundingAttributions" (.arr [])

/-- Lines 64-66, one loop iteration: the formatted line
`f"{i+1}. [{title}]({uri})\n"` with defaults `'Link'` and `'#'`. -/
def sourceLine (i : Nat) (source : Json) : Except PyErr String := do
  let web ← pyGet source "web" (.obj [])
  let title ← pyGet web "title" (.str "Link")
  let uri ← pyGet web "uri" (.str "#")
  .ok (toString (i + 1) ++ ". [" ++ pyStr title ++ "](" ++ pyStr uri ++ ")\n")

/-- Lines 62-66: the loop accumulating `source_list` (left fold starting
from `"\n\nSources:\n"`, enumerating from 0). -/
def buildSourceList : Nat → String → List Json → Except PyErr String
  | _, acc, [] => .ok acc
  | i, acc, s :: rest => do
    let line ← sourceLine i s
    buildSourceList (i + 1) (acc ++ line) rest

/-- Python `text += source_list` on the extracted `text` value: string
concatenation for a string, in-place extension by the characters for a
list, `TypeError` otherwise. -/
def pyIAddStr (text : Json) (s : String) : Except PyErr Json :=
  match text with
  | .str t => .ok (.str (t ++ s))
  | .arr xs => .ok (.arr (xs ++ s.toList.map fun c => .str (String.singleton c)))
  | _ => .error .typeError

/-- Lines 56-69 of `generate_gemini_response`: the processing of a 2xx
response body `data`, in source order (text first, then sources, then the
truthiness check, slice, loop, and `+=`). -/
def gemini_result (body : Json) : Except PyErr Json := do
  let text ← extractText body
  let sources ← extractSources body
  if sources.truthy then
    let sliced ← pySlice3 sources
    let items ← pyIter sliced
    let sourceList ← buildSourceList 0 "\n\nSources:\n" items
    pyIAddStr text sourceList
  else
    .ok text

/-- Outcome of the single `requests.post` a generation function performs:
either a raised `requests.exceptions.RequestException` (transport error,
timeout, or a non-JSON body, whose `JSONDecodeError` is a
`RequestException` subclass) or a response with a status code and a
parsed JSON body. -/
inductive NetOutcome where
  | exc : NetOutcome
  | response : Nat → Json → NetOutcome

/-- Observable behaviour of one generation function call: the URLs of the
backend requests it attempted, and its outcome (a returned value, or a
Python exception it raises to its caller). -/
structure GenTrace (α : Type) where
  requests : List String
  result : Except PyErr α

def GEMINI_API_BASE : String := "https://generativelanguage.googleapis.com/v1beta/models"
def GEMINI_TEXT_MODEL : String := "gemini-2.5-flash-preview-09-2025"
def GEMINI_IMAGE_MODEL : String := "imagen-3.0-generate-002:predict"

/-- Line 36: the text-generation URL, with the key interpolated. -/
def geminiTextUrl (key : String) : String :=
  GEMINI_API_BASE ++ "/" ++ GEMINI_TEXT_MODEL ++ ":generateContent?key=" ++ key

/-- Line 77: the image-generation URL, with the key interpolated. -/
def imagenUrl (key : String) : String :=
  GEMINI_API_BASE ++ "/" ++ GEMINI_IMAGE_MODEL ++ "?key=" ++ key

/-- Line 81: the stylistic wrapper applied to the user prompt before it
is placed in the image-generation request payload. -/
def imagenStyledPrompt (prompt : String) : String :=
  "Professional digital art, highly detailed, sci-fi: " ++ prompt

/-- `generate_gemini_response` (lines 34-73), as a function of the API key
and the outcome of its `requests.post`. The request is attempted
unconditionally (there is no key check in the function); `raise_for_status`
raises `HTTPError` — a `RequestException` — for status `>= 400`, which the
`except` clause maps to the connection apology, as it does a transport
exception; on a 2xx body the result is `gemini_result`, whose non-`Request`
exceptions propagate to the caller. The `prompt` parameter only enters the
request payload and does not influence the result. -/
def generate_gemini_response (key prompt : String) (net : NetOutcome) : GenTrace Json :=
  { requests := [geminiTextUrl key]
    result :=
      match net with
      | .exc => .ok (.str connectApology)
      | .response status body =>
        if 400 ≤ status then .ok (.str connectApology) else gemini_result body }

/-- Lines 96-104 of `generate_imagen_image`: processing of a 2xx response
body (`data.get('predictions', [{}])[0].get('bytesBase64Encoded')`, then
the truthiness check and the data-URL construction). -/
def imagen_result (body : Json) : Except PyErr (Option String) := do
  let preds ← pyGet body "predictions" (.arr [.obj []])
  let p0 ← pyIndex0 preds
  let b64 ← pyGet p0 "bytesBase64Encoded" .null
  if b64.truthy then
    .ok (some ("data:image/png;base64," ++ pyStr b64))
  else
    .ok none

/-- `generate_imagen_image` (lines 75-108): returns the data URL, or
`none` (Python `None`) when the payload is missing/falsy or any
`RequestException` (transport failure or status `>= 400`) occurs. -/
def generate_imagen_image (key prompt : String) (net : NetOutcome) : GenTrace (Option String) :=
  { requests := [imagenUrl key]
    result :=
      match net with
      | .exc => .ok none
      | .response status body =>
        if 400 ≤ status then .ok none else imagen_result body }

/-- Environment of one handler invocation: the process-wide API key, the
behaviour of the `send_chat_action` call (the ephemeral "working" notice),
and the outcome of the backend request the handler may trigger. -/
structure HandlerEnv where
  key : String
  chatActionFails : Bool
  net : NetOutcome

/-- Observable trace of one handler invocation: how many chat-action
notices it attempted, the backend request URLs, the bodies passed to
`reply_text`, and whether the coroutine raised instead of completing. -/
structure HandlerTrace where
  chatActionAttempts : Nat
  backendRequests : List String
  replies : List Json
  raised : Bool

/-- Line 137: the fixed usage message of `/generate` without arguments. -/
def usageMessage : String :=
  "Please provide a description for the image. Example: `/generate a neon blue dragon`"

/-- Line 155: the apology when image generation returns `None`. -/
def imageFailReply : String := "Image generation failed. Please try a different prompt."

/-- Lines 150-151: the success reply of `/generate`. -/
def imageSuccessReply (prompt url : String) : String :=
  "Image generation successful for: *" ++ prompt ++ "*\n\n[View Generated Image (External Link)](" ++ url ++ ")"

/-- Lines 114-119: the `/start` welcome body. -/
def welcomeMessage : String :=
  "Hello! I am **Zathura Companion**, your AI assistant for this chat.\n\n" ++
  "**Ask me questions** about anything, and I\x27ll use Google Search to answer.\n\n" ++
  "**To generate an image**, use the command: `/generate [your creative prompt]`\n\n" ++
  "Example: `/generate a floating cyberpunk city at sunset`"

/-- `start_command` (lines 112-120): replies with the fixed welcome text;
no chat action, no backend request. -/
def start_command (env : HandlerEnv) : HandlerTrace :=
  { chatActionAttempts := 0
    backendRequests := []
    replies := [.str welcomeMessage]
    raised := false }

/-- Continuation of `handle_text_message` after the generation call
(line 132): reply with the returned value, or propagate the Python
exception (no reply is sent in that case). -/
def textReplyOf (r : Except PyErr Json) (requests : List String) : HandlerTrace :=
  match r with
  | .error _ =>
    { chatActionAttempts := 1, backendRequests := requests, replies := [], raised := true }
  | .ok v =>
    { chatActionAttempts := 1, backendRequests := requests, replies := [v], raised := false }

/-- `handle_text_message` (lines 122-132): awaits `send_chat_action`
unguarded (a failure there aborts the handler before any backend call),
then awaits `generate_gemini_response` and replies with its value; a
Python exception from the generation call propagates and no reply is
sent. -/
def handle_text_message (text : String) (env : HandlerEnv) : HandlerTrace :=
  if env.chatActionFails then
    { chatActionAttempts := 1, backendRequests := [], replies := [], raised := true }
  else
    textReplyOf (generate_gemini_response env.key text env.net).result
      (generate_gemini_response env.key text env.net).requests

/-- Continuation of `generate_image_command` after the generation call
(lines 148-155): reply with the success body or the fixed failure
apology, or propagate the Python exception (no reply in that case). -/
def imageReplyOf (prompt : String) (r : Except PyErr (Option String)) (requests : List String) :
    HandlerTrace :=
  match r with
  | .error _ =>
    { chatActionAttempts := 1, backendRequests := requests, replies := [], raised := true }
  | .ok (some url) =>
    { chatActionAttempts := 1, backendRequests := requests
      replies := [.str (imageSuccessReply prompt url)], raised := false }
  | .ok none =>
    { chatActionAttempts := 1, backendRequests := requests
      replies := [.str imageFailReply], raised := false }

/-- `generate_image_command` (lines 134-155): with no arguments it replies
with the usage message and returns before the chat action; otherwise it
joins the arguments, awaits `send_chat_action` unguarded, awaits
`generate_imagen_image`, and replies with the success body or the fixed
failure apology. -/
def generate_image_command (args : List String) (env : HandlerEnv) : HandlerTrace :=
  if args.isEmpty then
    { chatActionAttempts := 0, backendRequests := [], replies := [.str usageMessage], raised := false }
  else
    if env.chatActionFails then
      { chatActionAttempts := 1, backendRequests := [], replies := [], raised := true }
    else
      imageReplyOf (String.intercalate " " args)
        (generate_imagen_image env.key (String.intercalate " " args) env.net).result
        (generate_imagen_image env.key (String.intercalate " " args) env.net).requests

/-- A grounding attribution with a web title and URI, as the backend
sends it. -/
def mkSource (title uri : String) : Json :=
  .obj [("web", .obj [("title", .str title), ("uri", .str uri)])]

/-- A 2xx text-generation body whose first candidate carries the text `t`
and the grounding attributions `xs`. -/
def mkTextBody (t : String) (xs : List Json) : Json :=
  .obj [("candidates", .arr [.obj
    [("content", .obj [("parts", .arr [.obj [("text", .str t)]])]),
     ("groundingMetadata", .obj [("groundingAttributions", .arr xs)])]])]

/-- A 2xx text-generation body with text but no grounding metadata. -/
def mkPlainTextBody (t : String) : Json :=
  .obj [("candidates", .arr [.obj
    [("content", .obj [("parts", .arr [.obj [("text", .str t)]])])]])]

/-- A 2xx image-generation body with an encoded payload. -/
def mkImageBody (b64 : String) : Json :=
  .obj [("predictions", .arr [.obj [("bytesBase64Encoded", .str b64)]])]

/-- Spec-side reading of a grounding attribution (written from the spec
words, for comparison with the code): an entry counts only if it has both
a web title and a web URI, both strings. -/
def specAttrPair : Json → Option (String × String)
  | .obj fields =>
    match lookupField fields "web" with
    | some (.obj ws) =>
      match lookupField ws "title", lookupField ws "uri" with
      | some (.str t), some (.str u) => some (t, u)
      | _, _ => none
    | _ => none
  | _ => none

/-- Spec-side first-seen deduplication by URI. -/
def dedupByUri : List (String × String) → List String → List (String × String)
  | [], _ => []
  | (t, u) :: rest, seen =>
    if u ∈ seen then dedupByUri rest seen else (t, u) :: dedupByUri rest (u :: seen)

/-- Spec-side source pipeline of claim C1, written from the spec words:
keep only entries with both a title and a resolvable URI, deduplicate by
URI, truncate to at most 3, preserving first-seen order. -/
def specKeptSources (xs : List Json) : List (String × String) :=
  (dedupByUri (xs.filterMap specAttrPair) []).take 3

/-- Spec-side formatted source block over the kept sources. -/
def specSourceBlock (xs : List Json) : String :=
  "\n\nSources:\n" ++
    String.join ((specKeptSources xs).enum.map fun p =>
      toString (p.1 + 1) ++ ". [" ++ p.2.1 ++ "](" ++ p.2.2 ++ ")\n")

/-- An attribution used to exercise duplicate URIs. -/
def dupSource : Json := mkSource "T" "http://u"

/-- A 2xx body whose attribution list repeats the same source twice. -/
def dupBody : Json := mkTextBody "Answer" [dupSource, dupSource]

theorem gemini_response_2xx (key prompt : String) (status : Nat) (body : Json)
    (h : status < 400) :
    (generate_gemini_response key prompt (.response status body)).result = gemini_result body := by
  have hx : ¬ 400 ≤ status := by omega
  show (if 400 ≤ status then Except.ok (Json.str connectApology) else gemini_result body)
    = gemini_result body
  rw [if_neg hx]

theorem imagen_response_2xx (key prompt : String) (status : Nat) (body : Json)
    (h : status < 400) :
    (generate_imagen_image key prompt (.response status body)).result = imagen_result body := by
  have hx : ¬ 400 ≤ status := by omega
  show (if 400 ≤ status then Except.ok none else imagen_result body) = imagen_result body
  rw [if_neg hx]

theorem gemini_result_no_sources (body s : Json) (t : String)
    (ht : extractText body = .ok (.str t))
    (hs : extractSources body = .ok s) (hf : s.truthy = false) :
    gemini_result body = .ok (.str t) := by
  unfold gemini_result
  rw [ht, hs]
  show (if s.truthy = true then (do
      let sliced ← pySlice3 s
      let items ← pyIter sliced
      let sourceList ← buildSourceList 0 "\n\nSources:\n" items
      pyIAddStr (Json.str t) sourceList)
    else Except.ok (Json.str t)) = Except.ok (Json.str t)
  rw [hf]
  simp

theorem imagen_result_mkImageBody (b : String) (hb : b ≠ "") :
    imagen_result (mkImageBody b) = .ok (some ("data:image/png;base64," ++ b)) := by
  have hbb : (b != "") = true := bne_iff_ne.mpr hb
  show (if (b != "") = true then Except.ok (some ("data:image/png;base64," ++ b))
    else Except.ok none) = Except.ok (some ("data:image/png;base64," ++ b))
  rw [if_pos hbb]

/-- C1 (counterexample): the claim says the kept sources are filtered to
entries with both title and URI, deduplicated by URI and truncated to 3.
On a 2xx body whose attribution list is the same source twice, the code
formats both copies — two entries with the same URI — whereas the
spec-side pipeline (`specSourceBlock`, written from the spec words) keeps
one; the code output differs from the spec output at this input. -/
theorem C1_counterexample :
    (generate_gemini_response "k" "p" (.response 200 dupBody)).result
        = .ok (.str "Answer\n\nSources:\n1. [T](http://u)\n2. [T](http://u)\n") ∧
    specSourceBlock [dupSource, dupSource] = "\n\nSources:\n1. [T](http://u)\n" ∧
    "Answer\n\nSources:\n1. [T](http://u)\n2. [T](http://u)\n"
        ≠ "Answer" ++ specSourceBlock [dupSource, dupSource] :=
  ⟨rfl, rfl, by decide⟩

/-- C1 (amended): on a 2xx body with text `t` and a non-empty attribution
list, the code formats exactly the first three attributions in first-seen
order (defaulting a missing title to `Link` and a missing URI to `#`,
with no filtering and no URI-deduplication) and appends the block to the
text; the formatted list never has more than 3 entries. -/
theorem C1_sources_truncated_not_deduped (key prompt t : String) (x : Json) (rest : List Json)
    (acc : String)
    (h : buildSourceList 0 "\n\nSources:\n" ((x :: rest).take 3) = .ok acc) :
    (generate_gemini_response key prompt (.response 200 (mkTextBody t (x :: rest)))).result
        = .ok (.str (t ++ acc)) ∧ ((x :: rest).take 3).length ≤ 3 := by
  constructor
  · rw [gemini_response_2xx key prompt 200 _ (by omega)]
    show buildSourceList 0 "\n\nSources:\n" ((x :: rest).take 3) >>= pyIAddStr (Json.str t)
        = Except.ok (Json.str (t ++ acc))
    rw [h]
    rfl
  · rw [List.length_take]
    omega

/-- C1 (witness): instantiation of the amended claim at a body carrying
four copies of the same attribution. -/
theorem C1_witness :
    buildSourceList 0 "\n\nSources:\n" ([dupSource, dupSource, dupSource, dupSource].take 3)
        = .ok "\n\nSources:\n1. [T](http://u)\n2. [T](http://u)\n3. [T](http://u)\n" ∧
    ((generate_gemini_response "k" "p"
        (.response 200 (mkTextBody "Answer" [dupSource, dupSource, dupSource, dupSource]))).result
          = .ok (.str ("Answer" ++ "\n\nSources:\n1. [T](http://u)\n2. [T](http://u)\n3. [T](http://u)\n")) ∧
      ([dupSource, dupSource, dupSource, dupSource].take 3).length ≤ 3) :=
  ⟨rfl, C1_sources_truncated_not_deduped "k" "p" "Answer" dupSource
    [dupSource, dupSource, dupSource] "\n\nSources:\n1. [T](http://u)\n2. [T](http://u)\n3. [T](http://u)\n" rfl⟩

/-- C2: a raised `requests.RequestException` (transport failure or
timeout) makes `generate_gemini_response` return the connection apology
and `generate_imagen_image` return `None` — neither propagates the
exception — and each handler completes without raising, replying with a
user-visible apology. -/
theorem C2_transport_failure_typed (key text a : String) (as : List String) :
    (generate_gemini_response key text .exc).result = .ok (.str connectApology) ∧
    (generate_imagen_image key text .exc).result = .ok none ∧
    handle_text_message text ⟨key, false, .exc⟩ =
      { chatActionAttempts := 1, backendRequests := [geminiTextUrl key],
        replies := [.str connectApology], raised := false } ∧
    generate_image_command (a :: as) ⟨key, false, .exc⟩ =
      { chatActionAttempts := 1, backendRequests := [imagenUrl key],
        replies := [.str imageFailReply], raised := false } :=
  ⟨rfl, rfl, rfl, rfl⟩

/-- C3 (counterexample): on a 2xx body with no candidate text the code
does not return a distinguished failure with reason `empty response`: it
returns the fallback string through the ordinary success path, and the
result is literally identical to the one produced by a genuine success
whose candidate text happens to be that fallback string. -/
theorem C3_counterexample :
    (generate_gemini_response "k" "p" (.response 200 (.obj []))).result
        = .ok (.str fallbackText) ∧
    (generate_gemini_response "k" "p" (.response 200 (.obj []))).result
        = (generate_gemini_response "k" "p" (.response 200 (mkPlainTextBody fallbackText))).result :=
  ⟨rfl, rfl⟩

/-- C3 (amended): on a 2xx body whose first candidate text is
structurally absent (so extraction yields the fixed fallback string) and
whose sources value is falsy, `generate_gemini_response` returns the
fallback string `Sorry, I couldn\x27t process that request.` as an
ordinary success value — there is no distinguished Failure result. -/
theorem C3_missing_text_fallback (key prompt : String) (status : Nat) (body s : Json)
    (h1 : 200 ≤ status) (h2 : status < 300)
    (ht : extractText body = .ok (.str fallbackText))
    (hs : extractSources body = .ok s) (hf : s.truthy = false) :
    (generate_gemini_response key prompt (.response status body)).result
      = .ok (.str fallbackText) := by
  rw [gemini_response_2xx key prompt status body (by omega)]
  exact gemini_result_no_sources body s fallbackText ht hs hf

/-- C3 (witness): instantiation of the amended claim at a 200 response
with the empty-object body. -/
theorem C3_witness :
    (200 ≤ 200 ∧ 200 < 300) ∧
    extractText (Json.obj []) = .ok (.str fallbackText) ∧
    extractSources (Json.obj []) = .ok (.arr []) ∧
    (Json.arr []).truthy = false ∧
    (generate_gemini_response "k" "p" (.response 200 (.obj []))).result
      = .ok (.str fallbackText) :=
  ⟨⟨by decide, by decide⟩, rfl, rfl, rfl,
    C3_missing_text_fallback "k" "p" 200 (.obj []) (.arr [])
      (by decide) (by decide) rfl rfl rfl⟩

/-- C4: on the 2xx JSON body in which `candidates` is present but an
empty list, `generate_gemini_response` does not return normally: the
subscript `[0]` in `data.get('candidates', [{}])[0]` raises `IndexError`,
which the `except requests.exceptions.RequestException` clause does not
catch, so the exception propagates to the caller — contradicting the
spec, whose malformed-response handling is meant to recover locally. -/
theorem C4_empty_candidates_raises :
    (generate_gemini_response "k" "p"
        (.response 200 (.obj [("candidates", .arr [])]))).result
      = .error .indexError :=
  rfl

/-- C5 (counterexample): the claim says that with the backend API key
absent every generation call short-circuits to a failure without
attempting a backend request. The code has no key check: with the empty
key (the `os.getenv` default when the variable is absent) both generation
functions still attempt their backend request, with `key=` left empty in
the URL. -/
theorem C5_counterexample :
    (generate_gemini_response "" "p" (.response 403 (.obj []))).requests ≠ [] ∧
    (generate_gemini_response "" "p" (.response 403 (.obj []))).requests
        = [GEMINI_API_BASE ++ "/" ++ GEMINI_TEXT_MODEL ++ ":generateContent?key="] ∧
    (generate_imagen_image "" "p" (.response 403 (.obj []))).requests
        = [GEMINI_API_BASE ++ "/" ++ GEMINI_IMAGE_MODEL ++ "?key="] :=
  ⟨by decide, rfl, rfl⟩

/-- C5 (amended): with the key absent (empty string), the router and
non-backend handlers are unaffected (`/start` and the `/generate` usage
path reply normally and make no backend request), and each generation
call still attempts its backend request with an empty key; when the
backend rejects it (non-2xx) the call returns its typed failure value
(the connection apology, resp. `None`) instead of raising. -/
theorem C5_missing_key_degrades (prompt : String) (status : Nat) (body : Json)
    (net : NetOutcome) (h : 400 ≤ status) :
    (generate_gemini_response "" prompt (.response status body)).requests = [geminiTextUrl ""] ∧
    (generate_gemini_response "" prompt (.response status body)).result
        = .ok (.str connectApology) ∧
    (generate_imagen_image "" prompt (.response status body)).requests = [imagenUrl ""] ∧
    (generate_imagen_image "" prompt (.response status body)).result = .ok none ∧
    start_command ⟨"", false, net⟩ =
      { chatActionAttempts := 0, backendRequests := [],
        replies := [.str welcomeMessage], raised := false } ∧
    generate_image_command [] ⟨"", false, net⟩ =
      { chatActionAttempts := 0, backendRequests := [],
        replies := [.str usageMessage], raised := false } := by
  refine ⟨rfl, ?_, rfl, ?_, rfl, rfl⟩
  · show (if 400 ≤ status then Except.ok (Json.str connectApology) else gemini_result body)
      = Except.ok (Json.str connectApology)
    rw [if_pos h]
  · show (if 400 ≤ status then Except.ok none else imagen_result body) = Except.ok none
    rw [if_pos h]

/-- C5 (witness): instantiation of the amended claim at a 403 rejection. -/
theorem C5_witness :
    400 ≤ 403 ∧
    ((generate_gemini_response "" "p" (.response 403 (.obj []))).requests = [geminiTextUrl ""] ∧
     (generate_gemini_response "" "p" (.response 403 (.obj []))).result
         = .ok (.str connectApology) ∧
     (generate_imagen_image "" "p" (.response 403 (.obj []))).requests = [imagenUrl ""] ∧
     (generate_imagen_image "" "p" (.response 403 (.obj []))).result = .ok none ∧
     start_command ⟨"", false, .exc⟩ =
       { chatActionAttempts := 0, backendRequests := [],
         replies := [.str welcomeMessage], raised := false } ∧
     generate_image_command [] ⟨"", false, .exc⟩ =
       { chatActionAttempts := 0, backendRequests := [],
         replies := [.str usageMessage], raised := false }) :=
  ⟨by decide, C5_missing_key_degrades "p" 403 (.obj []) .exc (by decide)⟩

/-- C6 (counterexample): the claim says the ephemeral working notice is
best-effort and its failure leaves the final reply intact. In the code
`send_chat_action` is awaited without any guard: when it fails, the
handler raises before the generation call and no reply at all is sent
for the update. -/
theorem C6_counterexample :
    handle_text_message "hi" ⟨"k", true, .exc⟩ =
      { chatActionAttempts := 1, backendRequests := [], replies := [], raised := true } ∧
    generate_image_command ["neon", "city"] ⟨"k", true, .exc⟩ =
      { chatActionAttempts := 1, backendRequests := [], replies := [], raised := true } :=
  ⟨rfl, rfl⟩

/-- C6 (amended): the working notice is sent unguarded before the
generation call; whenever sending it fails, both handlers raise, make no
backend request, and produce no final reply for that update. -/
theorem C6_chat_action_not_best_effort (text key a : String) (as : List String)
    (net : NetOutcome) :
    handle_text_message text ⟨key, true, net⟩ =
      { chatActionAttempts := 1, backendRequests := [], replies := [], raised := true } ∧
    generate_image_command (a :: as) ⟨key, true, net⟩ =
      { chatActionAttempts := 1, backendRequests := [], replies := [], raised := true } :=
  ⟨rfl, rfl⟩

/-- C7: a `/generate` invocation with an empty argument list replies with
the fixed usage message and makes no network call at all — no backend
request and not even the chat-action notice — in every environment. -/
theorem C7_usage_error_no_calls (env : HandlerEnv) :
    generate_image_command [] env =
      { chatActionAttempts := 0, backendRequests := [],
        replies := [.str usageMessage], raised := false } :=
  rfl

/-- C8: on a 2xx response carrying body text `t` and exactly two sources
with titles and URIs, the reply body is the text followed by a
`Sources:` block listing both in first-seen order, each on its own line
as `n. [title](uri)` with 1-based index. -/
theorem C8_roundtrip_two_sources (key prompt t t1 u1 t2 u2 : String) (status : Nat)
    (h1 : 200 ≤ status) (h2 : status < 300) :
    (generate_gemini_response key prompt
        (.response status (mkTextBody t [mkSource t1 u1, mkSource t2 u2]))).result
      = .ok (.str (t ++ (("\n\nSources:\n" ++ ("1. [" ++ t1 ++ "](" ++ u1 ++ ")\n")) ++
          ("2. [" ++ t2 ++ "](" ++ u2 ++ ")\n")))) := by
  rw [gemini_response_2xx key prompt status _ (by omega)]
  rfl

/-- C8 (witness): instantiation at a 200 response with two concrete
sources. -/
theorem C8_witness :
    (200 ≤ 200 ∧ 200 < 300) ∧
    (generate_gemini_response "k" "what"
        (.response 200 (mkTextBody "X" [mkSource "A" "ua", mkSource "B" "ub"]))).result
      = .ok (.str ("X" ++ (("\n\nSources:\n" ++ ("1. [" ++ "A" ++ "](" ++ "ua" ++ ")\n")) ++
          ("2. [" ++ "B" ++ "](" ++ "ub" ++ ")\n")))) :=
  ⟨⟨by decide, by decide⟩,
    C8_roundtrip_two_sources "k" "what" "X" "A" "ua" "B" "ub" 200 (by decide) (by decide)⟩

/-- C9: on a 2xx response whose first candidate text is `Mount Everest.`
and whose sources value is falsy (no grounding sources),
`generate_gemini_response` returns exactly `Mount Everest.` with nothing
appended. -/
theorem C9_everest_exact (key prompt : String) (status : Nat) (body s : Json)
    (h1 : 200 ≤ status) (h2 : status < 300)
    (ht : extractText body = .ok (.str "Mount Everest."))
    (hs : extractSources body = .ok s) (hf : s.truthy = false) :
    (generate_gemini_response key prompt (.response status body)).result
      = .ok (.str "Mount Everest.") := by
  rw [gemini_response_2xx key prompt status body (by omega)]
  exact gemini_result_no_sources body s "Mount Everest." ht hs hf

/-- C9 (witness): instantiation at a 200 response whose body carries the
text and no grounding metadata. -/
theorem C9_witness :
    (200 ≤ 200 ∧ 200 < 300) ∧
    extractText (mkPlainTextBody "Mount Everest.") = .ok (.str "Mount Everest.") ∧
    extractSources (mkPlainTextBody "Mount Everest.") = .ok (.arr []) ∧
    (Json.arr []).truthy = false ∧
    (generate_gemini_response "k" "tallest" (.response 200 (mkPlainTextBody "Mount Everest."))).result
      = .ok (.str "Mount Everest.") :=
  ⟨⟨by decide, by decide⟩, rfl, rfl, rfl,
    C9_everest_exact "k" "tallest" 200 (mkPlainTextBody "Mount Everest.") (.arr [])
      (by decide) (by decide) rfl rfl rfl⟩

/-- C10: on a 2xx image response with a non-empty `bytesBase64Encoded`
payload, `generate_imagen_image` returns exactly
`data:image/png;base64,` concatenated with the payload, and the
`/generate` reply embeds that entire data URL inline as the Markdown
link target together with the original (joined) prompt. -/
theorem C10_image_data_url (key a : String) (as : List String) (status : Nat) (b : String)
    (h1 : 200 ≤ status) (h2 : status < 300) (hb : b ≠ "") :
    (generate_imagen_image key (String.intercalate " " (a :: as))
        (.response status (mkImageBody b))).result
      = .ok (some ("data:image/png;base64," ++ b)) ∧
    generate_image_command (a :: as) ⟨key, false, .response status (mkImageBody b)⟩ =
      { chatActionAttempts := 1
        backendRequests := [imagenUrl key]
        replies := [.str ("Image generation successful for: *" ++ String.intercalate " " (a :: as) ++
          "*\n\n[View Generated Image (External Link)](" ++ ("data:image/png;base64," ++ b) ++ ")")]
        raised := false } := by
  have hres : (generate_imagen_image key (String.intercalate " " (a :: as))
      (.response status (mkImageBody b))).result
        = .ok (some ("data:image/png;base64," ++ b)) := by
    rw [imagen_response_2xx key (String.intercalate " " (a :: as)) status (mkImageBody b) (by omega)]
    exact imagen_result_mkImageBody b hb
  refine ⟨hres, ?_⟩
  show imageReplyOf (String.intercalate " " (a :: as))
      (generate_imagen_image key (String.intercalate " " (a :: as))
        (.response status (mkImageBody b))).result
      (generate_imagen_image key (String.intercalate " " (a :: as))
        (.response status (mkImageBody b))).requests = _
  rw [hres]
  rfl

/-- C10 (witness): instantiation at `/generate neon city` with a 200
response carrying the payload `QUJD`. -/
theorem C10_witness :
    (200 ≤ 200 ∧ 200 < 300 ∧ "QUJD" ≠ "") ∧
    ((generate_imagen_image "k" (String.intercalate " " ["neon", "city"])
        (.response 200 (mkImageBody "QUJD"))).result
      = .ok (some ("data:image/png;base64," ++ "QUJD")) ∧
     generate_image_command ["neon", "city"] ⟨"k", false, .response 200 (mkImageBody "QUJD")⟩ =
       { chatActionAttempts := 1
         backendRequests := [imagenUrl "k"]
         replies := [.str ("Image generation successful for: *" ++
           String.intercalate " " ["neon", "city"] ++
           "*\n\n[View Generated Image (External Link)](" ++ ("data:image/png;base64," ++ "QUJD") ++ ")")]
         raised := false }) :=
  ⟨⟨by decide, by decide, by decide⟩,
    C10_image_data_url "k" "neon" ["city"] 200 "QUJD" (by decide) (by decide) (by decide)⟩

end ZathuraBot
